import Mathlib

/-!
A shallow embedding of the question-decomposition MCP server (src/server.py)
and proofs about its behaviour.

The server registers a single tool, decompose_question, that builds two chat
prompts, performs one structured-output request against a hosted reasoning
model, and renders the parsed result as numbered text lines.  The embedding
below translates the pydantic models, the tool registration metadata, the
request construction, the single-call/no-retry control flow, and the result
formatter.  The backend itself and the environment are modelled as explicit
parameters (an oracle function and an optional API key).
-/

/-- Pydantic model SubSubquestion (src/server.py, line 18): a second-level
subquestion carrying only its question text. -/
structure SubSubquestion where
  question : String
deriving DecidableEq, Repr

/-- Pydantic model Subqestion [sic, name as in the source] (line 21): a
top-level subquestion with its nested second-level subquestions. -/
structure Subqestion where
  subquestions : List SubSubquestion
  question : String
deriving DecidableEq, Repr

/-- Pydantic model DecompositionResult (line 25): the structured answer
parsed from the backend.  Its only fields are the original question and the
list of top-level subquestions. -/
structure DecompositionResult where
  original_question : String
  subquestions : List Subqestion
deriving DecidableEq, Repr

/-- One chat message of the outbound request (a role/content pair in the
input list of client.responses.parse). -/
structure ChatMessage where
  role : String
  content : String
deriving DecidableEq, Repr

/-- The outbound request built by decompose_question (lines 131-139): model
name, reasoning-effort hint, and the two chat messages.  The text-format
constraint is the constant schema DecompositionResult and is not repeated
here. -/
structure BackendRequest where
  model : String
  reasoning_effort : String
  input : List ChatMessage
deriving DecidableEq, Repr

/-- Chunk 1 of 5 of the system prompt (see system_prompt). -/
def sysp1 : String :=
  "Break down a forecasting question into subquestions for downstream forecasters. Do not formulate them as research questions of historic facts but only forward-looking. Questions on the same level should be as independent as possible (avoid strong correlation).\n\n<decomposition_strategies>\nUse these proven patterns to break complex questions into tractable subquestions. You can combine strategies.\n\nTemporal decomposition:\n- Break by sequential phases/milestones\n- Best for: staged processes with clear intermediate conditions\n\nConditional/prerequisite decomposition:\n- Identify necessary gates; combine via conditional structure\n- Best for: mergers, approvals, multi-step completions\n\nStakeholder decomposition:\n- Separate decisions by actors (boards, regulators, governments)\n- Best for: politics, business, multi-party actions\n\nMechanism/pathway d"

/-- Chunk 2 of 5 of the system prompt (see system_prompt). -/
def sysp2 : String :=
  "ecomposition:\n- Distinct causal routes; combine via OR logic (with overlap handled explicitly)\n- Best for: outcomes achievable through multiple independent paths\n\nComponent decomposition:\n- Outcome is aggregate of measurable parts\n- Best for: GDP, performance metrics, composite indices\n\nFailure mode decomposition:\n- Enumerate what must NOT happen\n- Best for: projects, plans, multi-point failure risks\n\nReference class decomposition:\n- Start from sector/process base rates, then adjust for specifics\n- Best for: startups, treaties, adoption processes with analogues\n\nScenario decomposition:\n- Define mutually exclusive world states; mix conditional forecasts\n- Best for: outcomes dependent on macro regimes or external shocks\n</decomposition_strategies>\n\n<important_reminders>\n- Do not include questions like \"Will the resolution criteria be met..?"

/-- Chunk 3 of 5 of the system prompt (see system_prompt). -/
def sysp3 : String :=
  "\"\n</important_reminders>\n\n<example>\nQuestion: “Will the unemployment rate for recent college graduates in the United States rise to 20% or more for three months before 2028?”\nSubquestion Decomposition:\n1. Will there be an economic crisis/recession in the US before 2028?  \n    1. Will there be an economic crisis/recession related to the ordinary business cycle?  \n    2. Will the stock market enter bear territory?  \n    3. Will there be an economic crisis/recession caused by trade conflicts?  \n        1. What will the effective tariff rate be in 2026?   \n        2. Will the effective tariff rate change dramatically throughout the year?  \n        3. Will exports from the US drop significantly?  \n    4. Will there be an economic crisis/recession caused by an oil supply shock?  \n        1. Will oil supply fall?  \n        2. Will domestic energy"

/-- Chunk 4 of 5 of the system prompt (see system_prompt). -/
def sysp4 : String :=
  " prices rise?  \n        1. Will data center construction significantly increase the demand for energy in the US?  \n    5. Will there be an economic crisis/recession caused by an asset bubble?  \n        1. Will the market cap of major companies with large AI exposure (e.g. Meta, OpenAI, Anthropic, Nvidia, xAI, Microsoft, Oracle) fall by more than 20%?  \n        2. Will one or more large crypto companies enter bankruptcy?  \n    6. Will there be a debt crisis in the US?  \n        1. Will the US default on its debt?  \n    7. Will the Fed raise interest rates significantly?  \n        1. Will inflation rise past and remain over 3%?  \n2. Will AI applications replace entry-level workers with college degrees?\n</example>\n\n<example>\nQuestion: \"Which party will hold a plurality in the US House of Representatives after the 2026 midterm elections?\"\nSub"

/-- Chunk 5 of 5 of the system prompt (see system_prompt). -/
def sysp5 : String :=
  "question Decomposition:\n   1. Will the US economy improve or get worse?  \n   2. Will Trump’s approval rating increase or decline?  \n   3. Will the generic congressional ballot shift toward Republicans or Democrats?  \n   4. Will there be new redistricting?  \n   5. Will SCOTUS rule on Section 2 of the Voting Rights Act in a way that affects redistricting by early next year?  \n   6. Will weather or natural catastrophes interfere with voting?  \n   7. Will the elections be fair?  \n      1. Will governments harass or intimidate opposition leaders?  \n      2. Will governments engage in voter suppression or intimidation?  \n      3. Will governments coerce media organizations to slant coverage?  \n      4. Will protests or private militia interfere with voting?  \n      5. Will vote counts be fair?\n<example>\n\nOutput the subquestions as a nested list."

/-- The system prompt of decompose_question (src/server.py, lines 44-127),
transcribed verbatim.  In the source it is one f-string literal that
interpolates nothing; here it is the concatenation of five consecutive
chunks, split only so that character-level facts about it stay within the
kernel's reduction depth. -/
def system_prompt : String :=
  sysp1 ++ (sysp2 ++ (sysp3 ++ (sysp4 ++ sysp5)))

/-- The request decompose_question sends (lines 129-139).  The user prompt
f-string interpolates only the question.  The context and cutoff_date
arguments are received by the function (lines 39-40) but are never used in
either prompt or anywhere else in the request. -/
def decompose_request (question context cutoff_date : String) : BackendRequest :=
  { model := "gpt-5.2"
    reasoning_effort := "high"
    input := [{ role := "system", content := system_prompt },
              { role := "user", content := "Question: " ++ question }] }

/-- The formatting loop of decompose_question (lines 143-147), translated
imperatively: a fold that appends one numbered line per top-level
subquestion followed by one three-space-indented numbered line per nested
subquestion.  Python enumerate(xs, 1) starts at 1, hence the +1 on the
zero-based List.enum indices. -/
def decompose_lines (result : DecompositionResult) : List String :=
  result.subquestions.enum.foldl
    (fun lines p =>
      let lines2 := lines ++ [toString (p.1 + 1) ++ ". " ++ p.2.question]
      p.2.subquestions.enum.foldl
        (fun ls q => ls ++ ["   " ++ toString (q.1 + 1) ++ ". " ++ q.2.question])
        lines2)
    []

/-- The return value of decompose_question (line 149): the lines joined by
single newline characters. -/
def decompose_format (result : DecompositionResult) : String :=
  String.intercalate "\n" (decompose_lines result)

/-- Failures of one decompose_question call: a missing credential (the
OpenAI client constructor raises when api_key is None, before any request),
or a backend failure (network error, non-2xx response, or output that
violates the schema and fails parsing), carried with its message. -/
inductive CallError where
  | credential
  | backend (msg : String)
deriving DecidableEq, Repr

/-- One invocation of decompose_question (lines 41-149) with the process
environment and the backend made explicit.  apiKey is the value of the
OPENAI_API_KEY environment variable; backend maps the one request to either
a failure or a parsed DecompositionResult.  The returned list records every
outbound request the call performs, in order; the source contains no retry,
no exception handler and no fallback, so a backend error propagates
unchanged and a missing credential fails before any request is made. -/
def decompose_run (apiKey : Option String)
    (backend : BackendRequest → Except String DecompositionResult)
    (question context cutoff_date : String) :
    Except CallError String × List BackendRequest :=
  match apiKey with
  | none => (Except.error CallError.credential, [])
  | some _ =>
    let req := decompose_request question context cutoff_date
    match backend req with
    | Except.error e => (Except.error (CallError.backend e), [req])
    | Except.ok r => (Except.ok (decompose_format r), [req])

/-- Registration metadata of an MCP tool: its name, tags, the exclude_args
list, and the parameter names of the wrapped function. -/
structure ToolDef where
  name : String
  tags : List String
  exclude_args : List String
  fnParams : List String
deriving DecidableEq, Repr

/-- The parameter schema FastMCP advertises to an invoking agent: the
function parameters minus the excluded ones. -/
def advertisedParams (t : ToolDef) : List String :=
  t.fnParams.filter (fun n => !t.exclude_args.contains n)

/-- The mcp.tool registration of decompose_question (lines 30-40). -/
def decompose_tool : ToolDef :=
  { name := "decompose_question"
    tags := ["backtesting_supported"]
    exclude_args := ["cutoff_date"]
    fnParams := ["question", "context", "cutoff_date"] }

/-- The tools registered by src/server.py: decompose_question only. -/
def serverTools : List ToolDef := [decompose_tool]

/-- One parameter of the callable signature, with whether it has a
default. -/
structure ToolParam where
  name : String
  hasDefault : Bool
deriving DecidableEq, Repr

/-- The signature of decompose_question (lines 37-40): question (required),
context (default \"\"), cutoff_date (default, see cutoff_used). -/
def decompose_params : List ToolParam :=
  [{ name := "question", hasDefault := false },
   { name := "context", hasDefault := true },
   { name := "cutoff_date", hasDefault := true }]

/-- The default of the context parameter (line 39). -/
def context_default : String := ""

/-- A calendar date, used to model datetime.now(). -/
structure Date where
  year : Nat
  month : Nat
  day : Nat
deriving DecidableEq, Repr

/-- Zero-pad to two digits, as strftime %m and %d do. -/
def pad2 (n : Nat) : String :=
  if n < 10 then "0" ++ toString n else toString n

/-- strftime "%Y-%m-%d" for four-digit years. -/
def fmtDate (d : Date) : String :=
  toString d.year ++ "-" ++ pad2 d.month ++ "-" ++ pad2 d.day

/-- The cutoff_date value a call uses (line 40).  Python evaluates a default
parameter expression once, when the def statement runs at module import, so
the default datetime.now().strftime("%Y-%m-%d") is the date at import time
(importDate), frozen for the process lifetime; callDate, the date at the
moment of the invocation, does not enter the computation.  An explicitly
supplied argument is used as given. -/
def cutoff_used (importDate callDate : Date) (arg : Option String) : String :=
  arg.getD (fmtDate importDate)

/-- Modelled from the spec: the importance label of the variant-B
Subquestion, restricted to high, medium and low.  The variant-B source file
is part of this repository but is not under src/; only the spec describes
it. -/
inductive Importance where
  | high
  | medium
  | low
deriving DecidableEq, Repr

/-- Modelled from the spec: the variant-B Subquestion, carrying question
text, a rationale string, and an importance label.  The variant-B source
file is not under src/. -/
structure SubquestionB where
  question : String
  rationale : String
  importance : Importance
deriving DecidableEq, Repr

/-- Modelled from the spec: the reading of DecompositionResult under which
it optionally carries a free-text reasoning summary, as the spec's data
model section describes.  The structure actually declared in src/server.py
(DecompositionResult above) has no such field. -/
structure DecompositionResultWithSummary where
  original_question : String
  subquestions : List Subqestion
  summary : Option String
deriving DecidableEq, Repr

/-- Forget the spec-side summary field, keeping the fields the code
declares. -/
def eraseSummary (r : DecompositionResultWithSummary) : DecompositionResult :=
  { original_question := r.original_question, subquestions := r.subquestions }

/-- Modelled from the spec: a formatter that renders the numbered lines and
then, when a summary is present, appends it as a trailing section, as the
spec's formatter contract describes. -/
def specFormatWithSummary (r : DecompositionResultWithSummary) : String :=
  match r.summary with
  | none => decompose_format (eraseSummary r)
  | some s => decompose_format (eraseSummary r) ++ "\n\n" ++ s

/-- The block of lines one enumerated top-level subquestion contributes to
the output: its own numbered line, then one indented numbered line per
nested subquestion, in list order. -/
def itemBlock (p : Nat × Subqestion) : List String :=
  (toString (p.1 + 1) ++ ". " ++ p.2.question) ::
  p.2.subquestions.enum.map (fun q => "   " ++ toString (q.1 + 1) ++ ". " ++ q.2.question)

/-- A fold that only ever appends single elements is a map. -/
theorem foldl_append_singleton {α β : Type} (f : α → β) (xs : List α) (acc : List β) :
    xs.foldl (fun ls x => ls ++ [f x]) acc = acc ++ xs.map f := by
  induction xs generalizing acc with
  | nil => simp
  | cons x xs ih => simp [ih]

/-- A fold that only ever appends blocks is a flatMap. -/
theorem foldl_append_block {α β : Type} (g : α → List β) (xs : List α) (acc : List β) :
    xs.foldl (fun ls x => ls ++ g x) acc = acc ++ xs.flatMap g := by
  induction xs generalizing acc with
  | nil => simp
  | cons x xs ih => simp [ih]

/-- The imperative formatting loop produces exactly the concatenation of
the per-item blocks, in order. -/
theorem decompose_lines_eq_flatMap (r : DecompositionResult) :
    decompose_lines r = r.subquestions.enum.flatMap itemBlock := by
  have hfun : (fun (lines : List String) (p : Nat × Subqestion) =>
      let lines2 := lines ++ [toString (p.1 + 1) ++ ". " ++ p.2.question]
      p.2.subquestions.enum.foldl
        (fun ls q => ls ++ ["   " ++ toString (q.1 + 1) ++ ". " ++ q.2.question])
        lines2)
      = fun lines p => lines ++ itemBlock p := by
    funext lines p
    simp [itemBlock, foldl_append_singleton]
  rw [decompose_lines, hfun, foldl_append_block]
  simp

/-- Executable occurrence check: does pat occur as a contiguous block of
hay.  Used to certify, within kernel reduction limits, that a prompt does
not mention a given string. -/
def containsPat (hay pat : List Char) : Bool :=
  pat.isPrefixOf hay ||
    match hay with
    | [] => false
    | _ :: t => containsPat t pat

/-- The executable occurrence check decides the infix relation. -/
theorem containsPat_iff (hay pat : List Char) :
    containsPat hay pat = true ↔ pat <:+: hay := by
  induction hay with
  | nil => simp [containsPat, List.isPrefixOf_iff_prefix]
  | cons a t ih =>
    rw [containsPat]
    simp [Bool.or_eq_true, List.isPrefixOf_iff_prefix, ih, List.infix_cons_iff]

/-- Negative form of containsPat_iff. -/
theorem not_infix_of_containsPat {hay pat : List Char}
    (h : containsPat hay pat = false) : ¬ pat <:+: hay := by
  intro hinf
  rw [← containsPat_iff] at hinf
  rw [h] at hinf
  cases hinf

/-- Occurrence refutation across an append: if pat (of length at most
k + 1) occurs neither in a, nor in b, nor in the window made of the last k
elements of a followed by the first k of b, then it does not occur in
a ++ b. -/
theorem not_infix_append_of {α : Type} {pat a b : List α} (k : Nat)
    (hk : pat.length ≤ k + 1)
    (ha : ¬ pat <:+: a) (hb : ¬ pat <:+: b)
    (hwin : ¬ pat <:+: a.drop (a.length - k) ++ b.take k) :
    ¬ pat <:+: a ++ b := by
  rintro ⟨s, t, hst⟩
  rcases List.append_eq_append_iff.mp hst with ⟨u, hu1, hu2⟩ | ⟨u, hu1, hu2⟩
  · exact ha ⟨s, u, hu1.symm⟩
  · rcases List.append_eq_append_iff.mp hu1 with ⟨v, hv1, hv2⟩ | ⟨v, hv1, hv2⟩
    · rcases eq_or_ne v [] with hv0 | hv0
      · refine hb ⟨[], t, ?_⟩
        rw [hv0] at hv2
        simp only [List.nil_append] at hv2 ⊢
        rw [hv2, ← hu2]
      rcases eq_or_ne u [] with hu0 | hu0
      · refine ha ⟨s, [], ?_⟩
        rw [hu0, List.append_nil] at hv2
        rw [List.append_nil, hv1, hv2]
      · have hlen : v.length + u.length = pat.length := by
          rw [hv2, List.length_append]
        have hvl : v.length ≤ k := by
          have := List.length_pos.mpr hu0
          omega
        have hul2 : u.length ≤ k := by
          have := List.length_pos.mpr hv0
          omega
        have hadrop : a.drop (a.length - k) = s.drop (a.length - k) ++ v := by
          rw [hv1, List.drop_append_eq_append_drop]
          have h0 : (s ++ v).length - k - s.length = 0 := by
            rw [List.length_append]
            omega
          rw [h0, List.drop_zero]
        have hbtake : b.take k = u ++ t.take (k - u.length) := by
          rw [hu2, List.take_append_eq_append_take, List.take_of_length_le hul2]
        refine hwin ⟨s.drop (a.length - k), t.take (k - u.length), ?_⟩
        rw [hadrop, hbtake, hv2]
        simp only [List.append_assoc]
    · refine hb ⟨v, t, ?_⟩
      rw [hu2, hv2]

set_option maxRecDepth 10000

/-- The end-to-end backtesting example date "2024-01-01" occurs nowhere in
the system prompt: the prompt never states the operative cutoff date.
Established chunk by chunk with the executable scanner, plus the straddle
windows at the four chunk boundaries. -/
theorem system_prompt_no_date : ¬ ("2024-01-01".data <:+: system_prompt.data) := by
  have step : ∀ (x : String) (rest : List Char),
      containsPat x.data "2024-01-01".data = false →
      ¬ ("2024-01-01".data <:+: rest) →
      ¬ ("2024-01-01".data <:+: (x.data.drop (x.data.length - 9) ++ rest.take 9)) →
      ¬ ("2024-01-01".data <:+: x.data ++ rest) := by
    intro x rest hx hr hw
    exact not_infix_append_of 9 (by decide) (not_infix_of_containsPat hx) hr hw
  have h5 : ¬ ("2024-01-01".data <:+: sysp5.data) :=
    not_infix_of_containsPat (by decide)
  have h4 : ¬ ("2024-01-01".data <:+: sysp4.data ++ sysp5.data) :=
    step sysp4 sysp5.data (by decide) h5 (by decide)
  have h3 : ¬ ("2024-01-01".data <:+: sysp3.data ++ (sysp4.data ++ sysp5.data)) :=
    step sysp3 _ (by decide) h4 (by decide)
  have h2 : ¬ ("2024-01-01".data <:+:
      sysp2.data ++ (sysp3.data ++ (sysp4.data ++ sysp5.data))) :=
    step sysp2 _ (by decide) h3 (by decide)
  have h1 : ¬ ("2024-01-01".data <:+:
      sysp1.data ++ (sysp2.data ++ (sysp3.data ++ (sysp4.data ++ sysp5.data)))) :=
    step sysp1 _ (by decide) h2 (by decide)
  have hdata : system_prompt.data
      = sysp1.data ++ (sysp2.data ++ (sysp3.data ++ (sysp4.data ++ sysp5.data))) := by
    simp [system_prompt, String.data_append]
  rw [hdata]
  exact h1

/-- Character-level form of one list intercalation step. -/
theorem list_intercalate_cons {α : Type} (sep : List α) (x : List α) (xs : List (List α)) :
    List.intercalate sep (x :: xs) = x ++ xs.flatMap (fun y => sep ++ y) := by
  induction xs generalizing x with
  | nil => simp [List.intercalate]
  | cons y ys ih =>
    rw [List.intercalate, List.intersperse_cons_cons, List.flatten, List.flatten,
      ← List.intercalate]
    rw [ih y]
    simp [List.append_assoc]

/-- String.intercalate agrees, character by character, with list
intercalation of the characters of the pieces: the result is exactly the
pieces joined by single copies of the separator, with nothing prepended or
appended. -/
theorem data_intercalate (s : String) (L : List String) :
    (String.intercalate s L).data = List.intercalate s.data (L.map String.data) := by
  cases L with
  | nil => rfl
  | cons a as =>
    have go : ∀ (as : List String) (acc : String),
        (String.intercalate.go acc s as).data
          = acc.data ++ as.flatMap (fun x => s.data ++ x.data) := by
      intro as
      induction as with
      | nil => intro acc; simp [String.intercalate.go]
      | cons x xs ih =>
        intro acc
        rw [String.intercalate.go, ih]
        simp [String.data_append, List.append_assoc]
    rw [show String.intercalate s (a :: as) = String.intercalate.go a s as from rfl,
      go, List.map_cons, list_intercalate_cons]
    simp [List.flatMap_map]

/-- Claim C1 (code bug): the claim says every decompose_question invocation
sends prompts that state the operative cutoff date and forbid post-cutoff
information, and in particular that cutoff_date = "2024-01-01" yields a
prompt stating 2024-01-01.  The code contradicts this: the request built
for that exact input is identical for every cutoff_date value, its message
contents are the fixed system prompt and "Question: Will X happen by
2030?", and the string "2024-01-01" occurs in neither message. -/
theorem claim_C1_code_bug :
    (∀ d : String, decompose_request "Will X happen by 2030?" "" d
        = decompose_request "Will X happen by 2030?" "" "2024-01-01")
  ∧ ((decompose_request "Will X happen by 2030?" "" "2024-01-01").input.map ChatMessage.content
        = [system_prompt, "Question: Will X happen by 2030?"])
  ∧ ¬ ("2024-01-01".data <:+: system_prompt.data)
  ∧ ¬ ("2024-01-01".data <:+: ("Question: Will X happen by 2030?").data) := by
  exact ⟨fun d => rfl, rfl, system_prompt_no_date, not_infix_of_containsPat (by decide)⟩

/-- Claim C2: cutoff_date is a real parameter of decompose_question's
function signature, yet absent from the advertised parameter schema, and
the same holds for every registered tool tagged backtesting_supported. -/
theorem claim_C2 :
    ("cutoff_date" ∈ decompose_tool.fnParams
      ∧ "cutoff_date" ∉ advertisedParams decompose_tool)
  ∧ (∀ t ∈ serverTools, "backtesting_supported" ∈ t.tags →
      ("cutoff_date" ∈ t.fnParams ∧ "cutoff_date" ∉ advertisedParams t)) := by
  decide

/-- Claim C3: the formatted output consists, in order, of one block per
top-level subquestion — its numbered line followed by its nested indented
lines, in list order, with no reordering and no deduplication — so it has
exactly N top-level lines and, under item k, exactly as many nested lines
as item k has nested subquestions; the total line count is N plus the sum
of the nested counts. -/
theorem claim_C3 (r : DecompositionResult) :
    decompose_lines r = r.subquestions.enum.flatMap itemBlock
  ∧ (decompose_lines r).length
      = r.subquestions.length
        + (r.subquestions.map (fun sq => sq.subquestions.length)).sum := by
  refine ⟨decompose_lines_eq_flatMap r, ?_⟩
  have h1 : ∀ (l : List (Nat × Subqestion)),
      (l.flatMap itemBlock).length
        = l.length + (l.map (fun p => p.2.subquestions.length)).sum := by
    intro l
    induction l with
    | nil => simp
    | cons x xs ih =>
      simp [itemBlock, ih]
      omega
  rw [decompose_lines_eq_flatMap r, h1]
  congr 1
  · exact List.enum_length
  · rw [show (fun (p : Nat × Subqestion) => p.2.subquestions.length)
        = ((fun sq : Subqestion => sq.subquestions.length) ∘ Prod.snd) from rfl,
      ← List.map_map, List.enum_map_snd]

/-- Claim C4 (code bug): the claim says an omitted cutoff_date defaults to
the date of the call.  Python evaluates the default expression once at
module import, so a process imported on 2024-01-01 and invoked on
2024-01-02 uses "2024-01-01", not the call date "2024-01-02". -/
theorem claim_C4_code_bug :
    cutoff_used ⟨2024, 1, 1⟩ ⟨2024, 1, 2⟩ none = "2024-01-01"
  ∧ fmtDate ⟨2024, 1, 2⟩ = "2024-01-02"
  ∧ cutoff_used ⟨2024, 1, 1⟩ ⟨2024, 1, 2⟩ none ≠ fmtDate ⟨2024, 1, 2⟩ := by
  refine ⟨rfl, rfl, by decide⟩

/-- Claim C5: a decompose_question invocation with a credential performs
exactly one outbound request (the one built from its arguments, so no
retries), and its outcome is exactly the backend's outcome: a backend
error propagates as the call's error and a parsed result is formatted and
returned, with no partial result or degraded mode; without a credential
the call fails before any request. -/
theorem claim_C5 (key question context cutoff_date : String)
    (backend : BackendRequest → Except String DecompositionResult) :
    decompose_run none backend question context cutoff_date
      = (Except.error CallError.credential, [])
  ∧ (decompose_run (some key) backend question context cutoff_date).2
      = [decompose_request question context cutoff_date]
  ∧ decompose_run (some key) backend question context cutoff_date
      = (match backend (decompose_request question context cutoff_date) with
         | Except.error e => Except.error (CallError.backend e)
         | Except.ok r => Except.ok (decompose_format r),
         [decompose_request question context cutoff_date]) := by
  refine ⟨rfl, ?_, ?_⟩ <;>
    cases h : backend (decompose_request question context cutoff_date) <;>
      simp [decompose_run, h]

/-- Claim C6 (counterexample): the claim says DecompositionResult
optionally carries a reasoning summary which the formatter appends as a
trailing section.  On the structure the code declares there is no summary
to carry, and the formatter emits nothing after the numbered lines: for a
one-item result it returns exactly "1. A", differing from the spec-side
formatter that does append a present summary. -/
theorem claim_C6_counterexample :
    specFormatWithSummary ⟨"Q", [⟨[], "A"⟩], some "Summary."⟩
        ≠ decompose_format ⟨"Q", [⟨[], "A"⟩]⟩
  ∧ decompose_format ⟨"Q", [⟨[], "A"⟩]⟩ = "1. A" := by
  constructor
  · decide
  · decide

/-- Claim C6 (amended): the code's DecompositionResult carries only the
original question and the subquestions — it is fully determined by those
two fields, with no summary — and the formatted text depends only on the
subquestions, so no trailing summary section exists. -/
theorem claim_C6_amended :
    (∀ r1 r2 : DecompositionResult, r1.original_question = r2.original_question →
        r1.subquestions = r2.subquestions → r1 = r2)
  ∧ (∀ q1 q2 sqs, decompose_format ⟨q1, sqs⟩ = decompose_format ⟨q2, sqs⟩) := by
  constructor
  · rintro ⟨o1, s1⟩ ⟨o2, s2⟩ h1 h2
    cases h1
    cases h2
    rfl
  · intro q1 q2 sqs
    rfl

/-- Witness for claim_C6_amended at concrete inputs. -/
theorem claim_C6_amended_witness :
    (⟨"Q", []⟩ : DecompositionResult) = ⟨"Q", []⟩
  ∧ decompose_format ⟨"a", [⟨[], "X"⟩]⟩ = decompose_format ⟨"b", [⟨[], "X"⟩]⟩ :=
  ⟨claim_C6_amended.1 ⟨"Q", []⟩ ⟨"Q", []⟩ rfl rfl,
   claim_C6_amended.2 "a" "b" [⟨[], "X"⟩]⟩

/-- Claim C7 (counterexample): the claim puts a max_subquestions parameter
(default 5) in the call signature; the function has no such parameter. -/
theorem claim_C7_counterexample :
    "max_subquestions" ∉ decompose_params.map ToolParam.name
  ∧ "max_subquestions" ∉ decompose_tool.fnParams := by
  decide

/-- Claim C7 (amended): the callable signature is
decompose_question(question, context = "", cutoff_date = the date captured
at module load) returning a text block; question is the only required
parameter and no max_subquestions parameter exists. -/
theorem claim_C7_amended :
    decompose_params.map ToolParam.name = ["question", "context", "cutoff_date"]
  ∧ (decompose_params.filter (fun p => p.hasDefault)).map ToolParam.name
      = ["context", "cutoff_date"]
  ∧ context_default = ""
  ∧ (∀ importDate callDate : Date,
      cutoff_used importDate callDate none = fmtDate importDate) := by
  exact ⟨by decide, by decide, rfl, fun _ _ => rfl⟩

/-- Claim C8: the two tool variants differ in schema shape as described:
variant A's Subqestion is exactly question text plus a nested list of
second-level subquestions, and variant B's Subquestion is exactly question
text, a rationale string, and an importance label that can only be high,
medium or low.  Variant B is modelled from the spec: its source file is
not under src/. -/
theorem claim_C8 :
    (∀ v : Importance, v = Importance.high ∨ v = Importance.medium ∨ v = Importance.low)
  ∧ (∀ a b : Subqestion, a.question = b.question →
        a.subquestions = b.subquestions → a = b)
  ∧ (∀ a b : SubquestionB, a.question = b.question → a.rationale = b.rationale →
        a.importance = b.importance → a = b) := by
  refine ⟨fun v => by cases v <;> simp, ?_, ?_⟩
  · rintro ⟨s1, q1⟩ ⟨s2, q2⟩ h1 h2
    cases h1
    cases h2
    rfl
  · rintro ⟨q1, r1, i1⟩ ⟨q2, r2, i2⟩ h1 h2 h3
    cases h1
    cases h2
    cases h3
    rfl

/-- Witness for claim_C8 at concrete inputs. -/
theorem claim_C8_witness :
    (Importance.high = Importance.high ∨ Importance.high = Importance.medium
      ∨ Importance.high = Importance.low)
  ∧ (⟨[], "q"⟩ : Subqestion) = ⟨[], "q"⟩
  ∧ (⟨"q", "r", Importance.low⟩ : SubquestionB) = ⟨"q", "r", Importance.low⟩ :=
  ⟨claim_C8.1 Importance.high,
   claim_C8.2.1 ⟨[], "q"⟩ ⟨[], "q"⟩ rfl rfl,
   claim_C8.2.2 ⟨"q", "r", Importance.low⟩ ⟨"q", "r", Importance.low⟩ rfl rfl rfl⟩

/-- Claim C9: two invocations with the same question but arbitrary context
and cutoff_date arguments build identical requests — identical system and
user prompts — and, for the same environment and backend, the whole call
result is identical: context and cutoff_date have no influence on the
outbound request or the returned text. -/
theorem claim_C9 (question context1 cutoff1 context2 cutoff2 : String)
    (apiKey : Option String)
    (backend : BackendRequest → Except String DecompositionResult) :
    decompose_request question context1 cutoff1
      = decompose_request question context2 cutoff2
  ∧ decompose_run apiKey backend question context1 cutoff1
      = decompose_run apiKey backend question context2 cutoff2 :=
  ⟨rfl, by cases apiKey <;> rfl⟩

/-- Claim C10 (counterexample): the claim says the returned text never has
a trailing newline.  When the final question text itself ends in a newline
the output does end in one: the formatter adds nothing, but removes
nothing either. -/
theorem claim_C10_counterexample :
    decompose_format ⟨"Q", [⟨[], "A\n"⟩]⟩ = "1. A\n"
  ∧ (decompose_format ⟨"Q", [⟨[], "A\n"⟩]⟩).data.getLast? = some '\n' := by
  constructor
  · decide
  · decide

/-- Claim C10 (amended): the formatter is total; its output characters are
exactly the lines' characters joined by single newline separators — so the
formatter itself appends no trailing newline, though the output can end in
one when the final question text does — and an empty subquestion list
yields the empty string. -/
theorem claim_C10_amended (r : DecompositionResult) :
    (decompose_format r).data
      = List.intercalate "\n".data ((decompose_lines r).map String.data)
  ∧ (r.subquestions = [] → decompose_format r = "") := by
  constructor
  · exact data_intercalate "\n" (decompose_lines r)
  · intro h
    obtain ⟨o, sqs⟩ := r
    cases h
    rfl

/-- Witness for claim_C10_amended at a concrete input. -/
theorem claim_C10_amended_witness :
    decompose_format ⟨"Q", []⟩ = "" :=
  (claim_C10_amended ⟨"Q", []⟩).2 rfl
